import Mathlib

/-!
Verification development for `corinfo.h` (ColumbusTech/Columbus-Info): a
single-header C library returning a CPU/RAM snapshot.  The C code is embedded
shallowly: the CPUID instruction becomes an oracle `Nat → Regs`, byte buffers
become total functions `Nat → Nat` written through an explicit write list
(mirroring the C store loops), and the two platform variants of
`corinfo_GetInfo` become pure functions over an environment record that carries
the operating-system responses, returning the status, the final pointed-to
snapshot, and the trace of external calls issued.
-/

set_option maxHeartbeats 1000000
set_option autoImplicit false

/-- The four 32-bit output registers of one CPUID invocation (`int cpu[4]` in
the source: cpu[0]=EAX, cpu[1]=EBX, cpu[2]=ECX, cpu[3]=EDX).  Each register is
modelled by its unsigned 32-bit pattern; for the shift-and-mask byte and bit
extractions the code performs (shift amounts ≤ 24, masks 0xFF and 0x1) the C
`int` arithmetic-shift reading agrees with this pattern reading. -/
structure Regs where
  r0 : Nat
  r1 : Nat
  r2 : Nat
  r3 : Nat

/-- Little-endian byte extraction exactly as the C stores write it:
`(r >> (i * 8)) & 0xFF`. -/
def byteOf (r i : Nat) : Nat := (r >>> (i * 8)) &&& 0xFF

/-- Single-bit extraction exactly as `__extensions` computes it:
`(r >> k) & 0x1`. -/
def bitOf (r k : Nat) : Nat := (r >>> k) &&& 0x1

/-- Spec-side reading of "the i-th little-endian byte of w": base-256 digit. -/
def leByte (w i : Nat) : Nat := w / 256 ^ i % 256

/-- A byte buffer (`uint8_t*` destination), as a total function from index to
stored byte. -/
def Buf : Type := Nat → Nat

/-- One C store `buf[i] = v`. -/
def bufSet (b : Buf) (i v : Nat) : Buf := fun j => if j = i then v else b j

/-- Perform a sequence of stores in order (later stores win). -/
def applyWrites (ws : List (Nat × Nat)) (b : Buf) : Buf :=
  ws.foldl (fun b w => bufSet b w.1 w.2) b

/-- The all-zero buffer. -/
def zeroBuf : Buf := fun _ => 0

/-- The store sequence of `__vendor_string`: for i = 0..3, in loop order,
`string[i+0] = byte i of cpu[1]`, `string[i+4] = byte i of cpu[3]`,
`string[i+8] = byte i of cpu[2]`. -/
def vendor_writes (cpu : Regs) : List (Nat × Nat) :=
  (List.range 4).flatMap fun i =>
    [(i + 0, byteOf cpu.r1 i), (i + 4, byteOf cpu.r3 i), (i + 8, byteOf cpu.r2 i)]

/-- `__vendor_string(cpu, string)`: applies the vendor store sequence to the
destination buffer. -/
def __vendor_string (cpu : Regs) (string : Buf) : Buf :=
  applyWrites (vendor_writes cpu) string

/-- The `commands` array of `__brand_string` (as unsigned patterns). -/
def brand_commands : List Nat := [0x80000002, 0x80000003, 0x80000004]

/-- The store sequence of one iteration of the outer `__brand_string` loop at
a given offset: for j = 0..3, in loop order, `string[offset+j+0] = byte j of
cpu[0]`, `.. +4 .. cpu[1]`, `.. +8 .. cpu[2]`, `.. +12 .. cpu[3]`. -/
def brand_block_writes (cpu : Regs) (offset : Nat) : List (Nat × Nat) :=
  (List.range 4).flatMap fun j =>
    [(offset + j + 0, byteOf cpu.r0 j), (offset + j + 4, byteOf cpu.r1 j),
     (offset + j + 8, byteOf cpu.r2 j), (offset + j + 12, byteOf cpu.r3 j)]

/-- Loop state of `__brand_string`: CPUID input codes issued so far (in
order), the running `offset`, and the destination buffer. -/
structure BrandState where
  calls : List Nat
  offset : Nat
  buf : Buf

/-- One iteration `i` of the `__brand_string` outer loop: issue
`__cpuid(cpu, commands[i])`, store the 16 bytes at the current offset, advance
the offset by 16. -/
def brand_body (cpuid : Nat → Regs) (st : BrandState) (i : Nat) : BrandState :=
  let cmd := brand_commands.getD i 0
  let cpu := cpuid cmd
  { calls := st.calls ++ [cmd]
    offset := st.offset + 16
    buf := applyWrites (brand_block_writes cpu st.offset) st.buf }

/-- The whole `__brand_string` loop (`for i = 0..2`), from offset 0. -/
def brand_run (cpuid : Nat → Regs) (string : Buf) : BrandState :=
  (List.range 3).foldl (brand_body cpuid) ⟨[], 0, string⟩

/-- `__brand_string(cpu, string)`: the incoming `cpu` array is overwritten by
the first internal CPUID call, so the result depends only on the CPUID oracle
and the destination buffer. -/
def __brand_string (cpuid : Nat → Regs) (string : Buf) : Buf :=
  (brand_run cpuid string).buf

/-- `struct corinfo`, field for field.  The seven extension flags are
`uint8_t` and are kept as `Nat` (the code only ever stores 0 or 1 in them). -/
structure corinfo where
  CpuCount : Nat
  CpuFrequency : Nat
  VendorString : Buf
  BrandString : Buf
  MMX : Nat
  SSE : Nat
  SSE2 : Nat
  SSE3 : Nat
  SSE41 : Nat
  SSE42 : Nat
  AVX : Nat
  RamSize : Nat
  RamFree : Nat
  RamUsage : Nat

/-- `__extensions(cpu, info)`: issues `__cpuid(cpu, 0x00000001)` and stores the
seven single-bit flags from ECX (`cpu[2]`) and EDX (`cpu[3]`). -/
def __extensions (cpuid : Nat → Regs) (info : corinfo) : corinfo :=
  let cpu := cpuid 0x00000001
  { info with
    MMX := bitOf cpu.r3 23
    SSE := bitOf cpu.r3 25
    SSE2 := bitOf cpu.r3 26
    SSE3 := bitOf cpu.r2 0
    SSE41 := bitOf cpu.r2 19
    SSE42 := bitOf cpu.r2 20
    AVX := bitOf cpu.r2 28 }

/-- The zero-store sequence of the `__null_corinfo` buffer loops
(`for i < n, buf[i] = 0`). -/
def zeroWrites (n : Nat) : List (Nat × Nat) :=
  (List.range n).map fun i => (i, 0)

/-- `__null_corinfo(info)`: every scalar field set to 0 and both string
buffers zeroed index by index (12 and 48 stores). -/
def __null_corinfo (info : corinfo) : corinfo :=
  { CpuCount := 0
    CpuFrequency := 0
    VendorString := applyWrites (zeroWrites 12) info.VendorString
    BrandString := applyWrites (zeroWrites 48) info.BrandString
    MMX := 0
    SSE := 0
    SSE2 := 0
    SSE3 := 0
    SSE41 := 0
    SSE42 := 0
    AVX := 0
    RamSize := 0
    RamFree := 0
    RamUsage := 0 }

/-- C `isspace` on the default locale: space, tab, newline, vertical tab,
form feed, carriage return. -/
def isSpaceC (c : Char) : Bool :=
  c = ' ' || c = '\t' || c = '\n' || c = '\x0b' || c = '\x0c' || c = '\r'

/-- Digit-accumulation phase of C `atoi` (stops at the first non-digit). -/
def atoiDigits : List Char → Nat → Nat
  | [], acc => acc
  | c :: cs, acc =>
    if c.isDigit then atoiDigits cs (acc * 10 + (c.toNat - 48)) else acc

/-- C `atoi`: skip leading whitespace, optional single sign, then decimal
digits (overflow is modelled exactly; C leaves it undefined). -/
def atoi (s : List Char) : Int :=
  match s.dropWhile isSpaceC with
  | '-' :: cs => -(atoiDigits cs 0 : Int)
  | '+' :: cs => (atoiDigits cs 0 : Int)
  | cs => (atoiDigits cs 0 : Int)

/-- C `strchr(line, c)` as the index of the first occurrence. -/
def strchr (c : Char) : List Char → Option Nat
  | [] => none
  | x :: xs => if x = c then some 0 else (strchr c xs).map (· + 1)

/-- The 7-byte literal compared by `memcmp(line, "cpu MHz", 7)`. -/
def mhzMarker : List Char := ['c', 'p', 'u', ' ', 'M', 'H', 'z']

/-- `memcmp(line, "cpu MHz", 7) == 0`: the first 7 bytes of the line equal the
marker (a line shorter than 7 bytes always miscompares before the marker's
first NUL-free 7 bytes are exhausted). -/
def lineMatches (line : List Char) : Bool := line.take 7 == mhzMarker

/-- C conversion `int` → `size_t` (64-bit): two's-complement reduction. -/
def toSizeT (x : Int) : Nat := (x % (2 ^ 64 : Int)).toNat

/-- Truncation to `uint32_t` on assignment. -/
def toU32 (n : Nat) : Nat := n % 2 ^ 32

/-- C conversion of a signed value (`long`) to `uint32_t`. -/
def intToU32 (x : Int) : Nat := (x % (2 ^ 32 : Int)).toNat

/-- `MHz = atoi(strchr(line, ':') + 2)` on a matching line: the parse starts
two characters past the first colon.  If the line has no colon, `strchr`
returns NULL and the C expression is undefined; the model returns the
environment's indeterminate `ubParse` value in that case. -/
def lineMHz (ubParse : Nat) (line : List Char) : Nat :=
  match strchr ':' line with
  | none => ubParse
  | some k => toSizeT (atoi (line.drop (k + 2)))

/-- The `getline` scan loop of the Unix-like variant: stop at the first line
whose first 7 bytes are `cpu MHz` and parse it; if no line matches, the local
`MHz` keeps its indeterminate initial value `mhzInit`. -/
def scanMHz (mhzInit ubParse : Nat) (lines : List (List Char)) : Nat :=
  match lines.find? lineMatches with
  | none => mhzInit
  | some line => lineMHz ubParse line

/-- The fields of `struct sysinfo` that the code reads (byte counts). -/
structure sysinfo where
  totalram : Nat
  freeram : Nat

/-- The fields of `MEMORYSTATUSEX` that the code reads. -/
structure MEMORYSTATUSEX where
  dwMemoryLoad : Nat
  ullTotalPhys : Nat
  ullAvailPhys : Nat

/-- Trace of the external calls `corinfo_GetInfo` issues, in program order. -/
inductive Event where
  | sysinfoQuery : Event
  | cpuidQuery : Nat → Event
  | fileOpen : String → Event
  | sysconfQuery : Event
  | getSystemInfo : Event
  | memStatusQuery : Event
  | regOpen : Event
  | regQuery : Event
  | printMessage : Event
  deriving DecidableEq

/-- `info->RamUsage = 100 - (info->RamFree / (float)info->RamSize) * 100`,
with the `float` arithmetic modelled as exact rational arithmetic; the
implicit float→`uint32_t` conversion truncates toward zero, which is the floor
on the nonnegative values concerned. -/
def ramUsageOf (size free : Nat) : Nat :=
  (⌊(100 : ℚ) - ((free : ℚ) / (size : ℚ)) * 100⌋).toNat

/-- The CPU-identification phase shared verbatim by both `corinfo_GetInfo`
variants: `__cpuid(cpu, 0x00000000)` followed by `__vendor_string`,
`__brand_string`, `__extensions`.  Returns the updated snapshot and the CPUID
events issued, in order. -/
def idPhase (cpuid : Nat → Regs) (info : corinfo) : corinfo × List Event :=
  let cpu := cpuid 0x00000000
  let i1 := { info with VendorString := __vendor_string cpu info.VendorString }
  let br := brand_run cpuid i1.BrandString
  let i2 := { i1 with BrandString := br.buf }
  (__extensions cpuid i2,
    Event.cpuidQuery 0 :: (br.calls.map Event.cpuidQuery ++ [Event.cpuidQuery 1]))

/-- Environment of the Unix-like (`__linux`) variant: the responses of the
host operating system, plus the indeterminate values the C code may read
(`MHz` is declared uninitialized; a marker line without a colon makes the
parse undefined). -/
structure LinuxEnv where
  sysinfoRes : Option sysinfo
  cpuid : Nat → Regs
  cpuinfo : Option (List (List Char))
  nprocs : Int
  mhzInit : Nat
  ubParse : Nat

/-- The `__linux` variant of `corinfo_GetInfo`, as (status, final pointed-to
snapshot, trace of external calls). -/
def corinfo_GetInfo_linux (env : LinuxEnv) (info : Option corinfo) :
    Int × Option corinfo × List Event :=
  match info with
  | none => (-1, none, [])
  | some info0 =>
    let i1 := __null_corinfo info0
    match env.sysinfoRes with
    | none => (-1, some i1, [Event.sysinfoQuery])
    | some sys =>
      let idr := idPhase env.cpuid i1
      let tr := Event.sysinfoQuery :: idr.2
      match env.cpuinfo with
      | none => (-1, some idr.1, tr ++ [Event.fileOpen "/proc/cpuinfo"])
      | some lines =>
        let mhz := scanMHz env.mhzInit env.ubParse lines
        let i2 := { idr.1 with
          CpuCount := intToU32 env.nprocs
          CpuFrequency := toU32 mhz
          RamSize := toU32 (sys.totalram / 1024)
          RamFree := toU32 (sys.freeram / 1024) }
        let i3 := { i2 with RamUsage := ramUsageOf i2.RamSize i2.RamFree }
        (0, some i3, tr ++ [Event.fileOpen "/proc/cpuinfo", Event.sysconfQuery])

/-- Environment of the `_WIN32` variant.  `regMHz = none` models a failing
`RegQueryValueEx` (its result is ignored by the code and `dwMHz` keeps its
initializer `_MAX_PATH = 260`); `regOpenOk = false` models a failing
`RegOpenKeyEx`. -/
structure WinEnv where
  cpuid : Nat → Regs
  dwNumberOfProcessors : Nat
  mem : MEMORYSTATUSEX
  regOpenOk : Bool
  regMHz : Option Nat

/-- The `_WIN32` variant of `corinfo_GetInfo`, as (status, final pointed-to
snapshot, trace of external calls).  `GlobalMemoryStatusEx`'s result is
ignored by the code, so the memory query cannot fail here. -/
def corinfo_GetInfo_win (env : WinEnv) (info : Option corinfo) :
    Int × Option corinfo × List Event :=
  match info with
  | none => (-1, none, [])
  | some info0 =>
    let i1 := __null_corinfo info0
    let idr := idPhase env.cpuid i1
    let tr := Event.getSystemInfo :: Event.memStatusQuery :: idr.2
    if env.regOpenOk then
      let dwMHz := env.regMHz.getD 260
      let i2 := { idr.1 with
        CpuCount := toU32 env.dwNumberOfProcessors
        CpuFrequency := toU32 dwMHz
        RamSize := toU32 (env.mem.ullTotalPhys / 1024)
        RamFree := toU32 (env.mem.ullAvailPhys / 1024)
        RamUsage := toU32 env.mem.dwMemoryLoad }
      (0, some i2, tr ++ [Event.regOpen, Event.regQuery])
    else
      (0, some idr.1, tr ++ [Event.regOpen, Event.printMessage])

/-- First `n` bytes of a buffer, for concrete evaluation. -/
def bufList (n : Nat) (b : Buf) : List Nat := (List.range n).map b

/-- Decidable "the snapshot is entirely zeroed" (every scalar field 0, every
byte of both string buffers 0). -/
def allZero (s : corinfo) : Bool :=
  s.CpuCount == 0 && s.CpuFrequency == 0 &&
  (bufList 12 s.VendorString).all (· == 0) &&
  (bufList 48 s.BrandString).all (· == 0) &&
  s.MMX == 0 && s.SSE == 0 && s.SSE2 == 0 && s.SSE3 == 0 &&
  s.SSE41 == 0 && s.SSE42 == 0 && s.AVX == 0 &&
  s.RamSize == 0 && s.RamFree == 0 && s.RamUsage == 0

/-- Spec-side brand-string byte map, following the spec's words: block
`b = k / 16` comes from the call with input code `0x80000002 + b`, and within
a block the bytes are the little-endian bytes of reg0, reg1, reg2, reg3 in
register order. -/
def brandSpecByte (cpuid : Nat → Regs) (k : Nat) : Nat :=
  let r := cpuid (0x80000002 + k / 16)
  let reg := k % 16 / 4
  leByte
    (if reg = 0 then r.r0 else if reg = 1 then r.r1 else if reg = 2 then r.r2 else r.r3)
    (k % 4)

/-- Spec-side reading of "the integer parsed immediately after the colon":
`atoi` of the text starting one character past the first colon. -/
def specParseAfterColon (line : List Char) : Int :=
  match strchr ':' line with
  | none => 0
  | some k => atoi (line.drop (k + 1))

theorem byteOf_eq_leByte (r i : Nat) : byteOf r i = leByte r i := by
  have h8 : (0xFF : Nat) = 2 ^ 8 - 1 := by norm_num
  rw [byteOf, leByte, h8, Nat.and_pow_two_sub_one_eq_mod,
    Nat.shiftRight_eq_div_pow, Nat.mul_comm, Nat.pow_mul]

theorem bitOf_eq_testBit (r k : Nat) :
    bitOf r k = if r.testBit k then 1 else 0 := by
  rw [bitOf, Nat.and_one_is_mod, Nat.shiftRight_eq_div_pow]
  rcases Nat.mod_two_eq_zero_or_one (r / 2 ^ k) with h | h <;>
    simp [Nat.testBit_to_div_mod, h]

theorem applyWrites_of_notMem (ws : List (Nat × Nat)) (b : Buf) (j : Nat)
    (h : ∀ p ∈ ws, p.1 ≠ j) : applyWrites ws b j = b j := by
  induction ws generalizing b with
  | nil => rfl
  | cons p ws ih =>
    have hp : p.1 ≠ j := h p (List.mem_cons_self p ws)
    have := ih (bufSet b p.1 p.2) fun q hq => h q (List.mem_cons_of_mem p hq)
    rw [applyWrites, List.foldl_cons] at *
    rw [this, bufSet, if_neg fun hj => hp hj.symm]

/-- The all-zero snapshot value, used as a concrete starting snapshot. -/
def info0 : corinfo :=
  ⟨0, 0, zeroBuf, zeroBuf, 0, 0, 0, 0, 0, 0, 0, 0, 0, 0⟩

/-- The two string-decoder calls of the identification phase, in program
order, without `__extensions` (for the frame statement about which snapshot
fields the two string decoders touch). -/
def idStrings (cpuid : Nat → Regs) (info : corinfo) : corinfo :=
  let i1 := { info with VendorString := __vendor_string (cpuid 0) info.VendorString }
  { i1 with BrandString := __brand_string cpuid i1.BrandString }

theorem vendor_writes_fst (cpu : Regs) :
    (vendor_writes cpu).map Prod.fst = [0, 4, 8, 1, 5, 9, 2, 6, 10, 3, 7, 11] := rfl

theorem vendor_writes_ne (cpu : Regs) (j : Nat) (hj : 12 ≤ j) :
    ∀ p ∈ vendor_writes cpu, p.1 ≠ j := by
  intro p hp
  have h1 := List.mem_map_of_mem Prod.fst hp
  rw [vendor_writes_fst] at h1
  simp only [List.mem_cons, List.not_mem_nil, or_false] at h1
  omega

theorem brand_block_writes_fst (cpu : Regs) (off : Nat) :
    (brand_block_writes cpu off).map Prod.fst =
      [off + 0 + 0, off + 0 + 4, off + 0 + 8, off + 0 + 12,
       off + 1 + 0, off + 1 + 4, off + 1 + 8, off + 1 + 12,
       off + 2 + 0, off + 2 + 4, off + 2 + 8, off + 2 + 12,
       off + 3 + 0, off + 3 + 4, off + 3 + 8, off + 3 + 12] := rfl

theorem brand_block_writes_ne (cpu : Regs) (off j : Nat) (hj : off + 16 ≤ j) :
    ∀ p ∈ brand_block_writes cpu off, p.1 ≠ j := by
  intro p hp
  have h1 := List.mem_map_of_mem Prod.fst hp
  rw [brand_block_writes_fst] at h1
  simp only [List.mem_cons, List.not_mem_nil, or_false] at h1
  omega

theorem brand_buf_eq (cpuid : Nat → Regs) (b : Buf) :
    (brand_run cpuid b).buf =
      applyWrites (brand_block_writes (cpuid 0x80000004) 32)
        (applyWrites (brand_block_writes (cpuid 0x80000003) 16)
          (applyWrites (brand_block_writes (cpuid 0x80000002) 0) b)) := rfl

/-- C1: for every four 32-bit input registers, `__vendor_string` writes a
12-byte identifier whose bytes 0–3 are the little-endian bytes of register 2
(cpu[1]), bytes 4–7 the little-endian bytes of register 4 (cpu[3]), and bytes
8–11 the little-endian bytes of register 3 (cpu[2]); in particular, registers
encoding the bytes of "GenuineIntel" in this interleave order decode to
exactly that ASCII string. -/
theorem C1_vendor_string_decodes (cpu : Regs) (string : Buf) :
    (∀ i, i < 4 →
      __vendor_string cpu string (i + 0) = leByte cpu.r1 i ∧
      __vendor_string cpu string (i + 4) = leByte cpu.r3 i ∧
      __vendor_string cpu string (i + 8) = leByte cpu.r2 i) ∧
    bufList 12 (__vendor_string ⟨0, 0x756e6547, 0x6c65746e, 0x49656e69⟩ zeroBuf)
      = "GenuineIntel".toList.map Char.toNat := by
  refine ⟨?_, by decide⟩
  intro i hi
  interval_cases i <;>
    exact ⟨byteOf_eq_leByte _ _, byteOf_eq_leByte _ _, byteOf_eq_leByte _ _⟩

theorem C1_vendor_string_decodes_witness :
    (0 : Nat) < 4 ∧
    __vendor_string ⟨0, 0x756e6547, 0x6c65746e, 0x49656e69⟩ zeroBuf (0 + 0)
      = leByte 0x756e6547 0 :=
  ⟨by decide,
    ((C1_vendor_string_decodes ⟨0, 0x756e6547, 0x6c65746e, 0x49656e69⟩ zeroBuf).1
      0 (by decide)).1⟩

/-- C2: the flags set by `__extensions` are exactly the booleans of the fixed
bits of the CPUID-1 result — MMX, SSE, SSE2 are bits 23, 25, 26 of the fourth
register (cpu[3]); SSE3, SSE4.1, SSE4.2, AVX are bits 0, 19, 20, 28 of the
third register (cpu[2]) — and setting any single one of these bits in
otherwise-zero registers yields that flag 1 and every other flag 0. -/
theorem C2_extension_flags :
    (∀ (cpuid : Nat → Regs) (info : corinfo),
      (__extensions cpuid info).MMX = (if (cpuid 1).r3.testBit 23 then 1 else 0) ∧
      (__extensions cpuid info).SSE = (if (cpuid 1).r3.testBit 25 then 1 else 0) ∧
      (__extensions cpuid info).SSE2 = (if (cpuid 1).r3.testBit 26 then 1 else 0) ∧
      (__extensions cpuid info).SSE3 = (if (cpuid 1).r2.testBit 0 then 1 else 0) ∧
      (__extensions cpuid info).SSE41 = (if (cpuid 1).r2.testBit 19 then 1 else 0) ∧
      (__extensions cpuid info).SSE42 = (if (cpuid 1).r2.testBit 20 then 1 else 0) ∧
      (__extensions cpuid info).AVX = (if (cpuid 1).r2.testBit 28 then 1 else 0)) ∧
    ([(__extensions (fun _ => ⟨0, 0, 0, 2 ^ 23⟩) info0),
      (__extensions (fun _ => ⟨0, 0, 0, 2 ^ 25⟩) info0),
      (__extensions (fun _ => ⟨0, 0, 0, 2 ^ 26⟩) info0),
      (__extensions (fun _ => ⟨0, 0, 2 ^ 0, 0⟩) info0),
      (__extensions (fun _ => ⟨0, 0, 2 ^ 19, 0⟩) info0),
      (__extensions (fun _ => ⟨0, 0, 2 ^ 20, 0⟩) info0),
      (__extensions (fun _ => ⟨0, 0, 2 ^ 28, 0⟩) info0)].map
        (fun s => [s.MMX, s.SSE, s.SSE2, s.SSE3, s.SSE41, s.SSE42, s.AVX])
      = [[1, 0, 0, 0, 0, 0, 0], [0, 1, 0, 0, 0, 0, 0], [0, 0, 1, 0, 0, 0, 0],
         [0, 0, 0, 1, 0, 0, 0], [0, 0, 0, 0, 1, 0, 0], [0, 0, 0, 0, 0, 1, 0],
         [0, 0, 0, 0, 0, 0, 1]]) := by
  refine ⟨?_, by decide⟩
  intro cpuid info
  exact ⟨bitOf_eq_testBit _ _, bitOf_eq_testBit _ _, bitOf_eq_testBit _ _,
    bitOf_eq_testBit _ _, bitOf_eq_testBit _ _, bitOf_eq_testBit _ _,
    bitOf_eq_testBit _ _⟩

/-- C3: `__brand_string` issues exactly the three identification calls
0x80000002, 0x80000003, 0x80000004 in that order, and bytes 0–47 of the
destination are the three 16-byte blocks in call order, each block the
little-endian bytes of its four registers in register order. -/
theorem C3_brand_string_layout (cpuid : Nat → Regs) (string : Buf) :
    (brand_run cpuid string).calls = [0x80000002, 0x80000003, 0x80000004] ∧
    ∀ k, k < 48 → __brand_string cpuid string k = brandSpecByte cpuid k := by
  refine ⟨rfl, ?_⟩
  intro k hk
  interval_cases k <;> exact byteOf_eq_leByte _ _

theorem C3_brand_string_layout_witness :
    (17 : Nat) < 48 ∧
    __brand_string (fun c => ⟨c, c + 1, c + 2, c + 3⟩) zeroBuf 17
      = brandSpecByte (fun c => ⟨c, c + 1, c + 2, c + 3⟩) 17 :=
  ⟨by decide,
    (C3_brand_string_layout (fun c => ⟨c, c + 1, c + 2, c + 3⟩) zeroBuf).2 17 (by decide)⟩

/-- C9: calling either platform variant of `corinfo_GetInfo` with a NULL
output pointer returns -1 immediately, issues no external or identification
calls (empty trace), and writes nothing. -/
theorem C9_null_pointer_noop :
    (∀ env : LinuxEnv, corinfo_GetInfo_linux env none = (-1, none, [])) ∧
    (∀ env : WinEnv, corinfo_GetInfo_win env none = (-1, none, [])) :=
  ⟨fun _ => rfl, fun _ => rfl⟩

/-- C10: the vendor decoder writes only indices 0–11 of its destination, the
brand decoder writes only indices 0–47 of its destination, and together the
two string decoders change no snapshot field other than `VendorString` and
`BrandString`. -/
theorem C10_decoder_write_bounds :
    (∀ (cpu : Regs) (string : Buf) (j : Nat), 12 ≤ j →
      __vendor_string cpu string j = string j) ∧
    (∀ (cpuid : Nat → Regs) (string : Buf) (j : Nat), 48 ≤ j →
      __brand_string cpuid string j = string j) ∧
    (∀ (cpuid : Nat → Regs) (info : corinfo),
      (idStrings cpuid info).CpuCount = info.CpuCount ∧
      (idStrings cpuid info).CpuFrequency = info.CpuFrequency ∧
      (idStrings cpuid info).MMX = info.MMX ∧
      (idStrings cpuid info).SSE = info.SSE ∧
      (idStrings cpuid info).SSE2 = info.SSE2 ∧
      (idStrings cpuid info).SSE3 = info.SSE3 ∧
      (idStrings cpuid info).SSE41 = info.SSE41 ∧
      (idStrings cpuid info).SSE42 = info.SSE42 ∧
      (idStrings cpuid info).AVX = info.AVX ∧
      (idStrings cpuid info).RamSize = info.RamSize ∧
      (idStrings cpuid info).RamFree = info.RamFree ∧
      (idStrings cpuid info).RamUsage = info.RamUsage) := by
  refine ⟨?_, ?_, ?_⟩
  · intro cpu string j hj
    exact applyWrites_of_notMem _ _ _ (vendor_writes_ne cpu j hj)
  · intro cpuid string j hj
    rw [__brand_string, brand_buf_eq]
    rw [applyWrites_of_notMem _ _ _ (brand_block_writes_ne _ 32 j (by omega))]
    rw [applyWrites_of_notMem _ _ _ (brand_block_writes_ne _ 16 j (by omega))]
    exact applyWrites_of_notMem _ _ _ (brand_block_writes_ne _ 0 j (by omega))
  · intro cpuid info
    exact ⟨rfl, rfl, rfl, rfl, rfl, rfl, rfl, rfl, rfl, rfl, rfl, rfl⟩

theorem C10_decoder_write_bounds_witness :
    ((12 : Nat) ≤ 12 ∧
      __vendor_string ⟨1, 2, 3, 4⟩ zeroBuf 12 = zeroBuf 12) ∧
    ((48 : Nat) ≤ 50 ∧
      __brand_string (fun _ => ⟨1, 2, 3, 4⟩) zeroBuf 50 = zeroBuf 50) :=
  ⟨⟨by decide, C10_decoder_write_bounds.1 ⟨1, 2, 3, 4⟩ zeroBuf 12 (by decide)⟩,
   ⟨by decide, C10_decoder_write_bounds.2.1 (fun _ => ⟨1, 2, 3, 4⟩) zeroBuf 50 (by decide)⟩⟩

theorem ramUsageOf_le_and_close (t f : Nat) (ht : 0 < t) (hf : f ≤ t) :
    ramUsageOf t f ≤ 100 ∧
    |(ramUsageOf t f : ℚ) - 100 * (1 - (f : ℚ) / (t : ℚ))| ≤ 1 := by
  have htq : (0 : ℚ) < (t : ℚ) := by exact_mod_cast ht
  have hdiv0 : (0 : ℚ) ≤ (f : ℚ) / (t : ℚ) := div_nonneg (by positivity) htq.le
  have hdiv1 : (f : ℚ) / (t : ℚ) ≤ 1 := by
    rw [div_le_one htq]; exact_mod_cast hf
  have hq0 : (0 : ℚ) ≤ (100 : ℚ) - (f : ℚ) / (t : ℚ) * 100 := by nlinarith
  have hq100 : (100 : ℚ) - (f : ℚ) / (t : ℚ) * 100 ≤ 100 := by nlinarith
  have hfl0 : (0 : ℤ) ≤ ⌊(100 : ℚ) - (f : ℚ) / (t : ℚ) * 100⌋ :=
    Int.le_floor.mpr (by exact_mod_cast hq0)
  have hfl100 : ⌊(100 : ℚ) - (f : ℚ) / (t : ℚ) * 100⌋ ≤ 100 := by
    have h := Int.floor_le_floor hq100
    simpa using h
  have h1 : ((⌊(100 : ℚ) - (f : ℚ) / (t : ℚ) * 100⌋ : ℚ))
      ≤ (100 : ℚ) - (f : ℚ) / (t : ℚ) * 100 := Int.floor_le _
  have h2 : (100 : ℚ) - (f : ℚ) / (t : ℚ) * 100 - 1
      < ((⌊(100 : ℚ) - (f : ℚ) / (t : ℚ) * 100⌋ : ℚ)) := Int.sub_one_lt_floor _
  have h3 : ((ramUsageOf t f : ℚ)) = ((⌊(100 : ℚ) - (f : ℚ) / (t : ℚ) * 100⌋ : ℚ)) := by
    rw [ramUsageOf]
    exact_mod_cast Int.toNat_of_nonneg hfl0
  constructor
  · rw [ramUsageOf]; omega
  · rw [h3, abs_le]
    constructor <;> linarith

/-- Concrete Unix environment: memory query succeeds, pseudo-file open fails. -/
def envC4 : LinuxEnv :=
  { sysinfoRes := some ⟨2048000, 1024000⟩
    cpuid := fun _ => ⟨1, 2, 3, 4⟩
    cpuinfo := none
    nprocs := 4
    mhzInit := 0
    ubParse := 0 }

/-- Concrete Unix environment: memory query fails. -/
def envC4a : LinuxEnv :=
  { sysinfoRes := none
    cpuid := fun _ => ⟨1, 2, 3, 4⟩
    cpuinfo := none
    nprocs := 4
    mhzInit := 0
    ubParse := 0 }

/-- C4 counterexample: with the memory query succeeding but the pseudo-file
open failing, `corinfo_GetInfo` returns the error -1 while the snapshot it
leaves behind is not entirely zeroed (the identification fields are
populated), refuting the claim that on every failing execution path the
caller observes only the all-zero snapshot. -/
theorem C4_counterexample :
    (corinfo_GetInfo_linux envC4 (some info0)).1 = -1 ∧
    ((corinfo_GetInfo_linux envC4 (some info0)).2.1.map allZero) = some false :=
  ⟨by decide, by decide⟩

/-- C4 (amended): every field is zeroed before population, so the zeroed
snapshot is all-zero; when the memory query fails, the error return leaves the
snapshot entirely zeroed; but when the pseudo-file open fails, the error
return leaves the CPU identification fields populated — the snapshot is
exactly the identification phase applied to the zeroed snapshot, with the
collector fields (core count, frequency, RAM fields) still zero. -/
theorem C4_zeroing_and_error_paths (env : LinuxEnv) (info : corinfo) :
    allZero (__null_corinfo info) = true ∧
    (env.sysinfoRes = none →
      corinfo_GetInfo_linux env (some info)
        = (-1, some (__null_corinfo info), [Event.sysinfoQuery])) ∧
    (∀ sys, env.sysinfoRes = some sys → env.cpuinfo = none →
      (corinfo_GetInfo_linux env (some info)).1 = -1 ∧
      (corinfo_GetInfo_linux env (some info)).2.1
        = some (idPhase env.cpuid (__null_corinfo info)).1 ∧
      ((corinfo_GetInfo_linux env (some info)).2.1.map corinfo.CpuCount) = some 0 ∧
      ((corinfo_GetInfo_linux env (some info)).2.1.map corinfo.CpuFrequency) = some 0 ∧
      ((corinfo_GetInfo_linux env (some info)).2.1.map corinfo.RamSize) = some 0 ∧
      ((corinfo_GetInfo_linux env (some info)).2.1.map corinfo.RamFree) = some 0 ∧
      ((corinfo_GetInfo_linux env (some info)).2.1.map corinfo.RamUsage) = some 0) := by
  refine ⟨rfl, ?_, ?_⟩
  · intro h
    simp [corinfo_GetInfo_linux, h]
  · intro sys hsys hcpu
    refine ⟨?_, ?_, ?_, ?_, ?_, ?_, ?_⟩ <;>
      simp [corinfo_GetInfo_linux, hsys, hcpu, idPhase, __extensions, __null_corinfo]

theorem C4_zeroing_and_error_paths_witness :
    (corinfo_GetInfo_linux envC4a (some info0)
      = (-1, some (__null_corinfo info0), [Event.sysinfoQuery])) ∧
    (corinfo_GetInfo_linux envC4 (some info0)).1 = -1 ∧
    (corinfo_GetInfo_linux envC4 (some info0)).2.1
      = some (idPhase envC4.cpuid (__null_corinfo info0)).1 :=
  ⟨(C4_zeroing_and_error_paths envC4a info0).2.1 rfl,
   ((C4_zeroing_and_error_paths envC4 info0).2.2 ⟨2048000, 1024000⟩ rfl rfl).1,
   ((C4_zeroing_and_error_paths envC4 info0).2.2 ⟨2048000, 1024000⟩ rfl rfl).2.1⟩

/-- Concrete Windows environment in which `RegOpenKeyEx` fails. -/
def envC5 : WinEnv :=
  { cpuid := fun _ => ⟨1, 2, 3, 4⟩
    dwNumberOfProcessors := 8
    mem := ⟨40, 2048000000, 1024000000⟩
    regOpenOk := false
    regMHz := some 3000 }

/-- C5: on the registry-based variant, when the configuration-store key for
the first logical processor cannot be opened, `corinfo_GetInfo` returns
success (0) with partial data: it returns before core count, frequency and
the three memory fields are assigned (they remain zero), while the snapshot
is exactly the identification phase applied to the zeroed snapshot, so the
vendor string, brand string and extension flags are populated. -/
theorem C5_registry_open_fail_soft (env : WinEnv) (info : corinfo)
    (h : env.regOpenOk = false) :
    (corinfo_GetInfo_win env (some info)).1 = 0 ∧
    (corinfo_GetInfo_win env (some info)).2.1
      = some (idPhase env.cpuid (__null_corinfo info)).1 ∧
    ((corinfo_GetInfo_win env (some info)).2.1.map corinfo.CpuCount) = some 0 ∧
    ((corinfo_GetInfo_win env (some info)).2.1.map corinfo.CpuFrequency) = some 0 ∧
    ((corinfo_GetInfo_win env (some info)).2.1.map corinfo.RamSize) = some 0 ∧
    ((corinfo_GetInfo_win env (some info)).2.1.map corinfo.RamFree) = some 0 ∧
    ((corinfo_GetInfo_win env (some info)).2.1.map corinfo.RamUsage) = some 0 ∧
    ((corinfo_GetInfo_win env (some info)).2.1.map corinfo.MMX)
      = some (bitOf (env.cpuid 1).r3 23) ∧
    ((corinfo_GetInfo_win env (some info)).2.1.map (fun s => bufList 12 s.VendorString))
      = some (bufList 12
          (__vendor_string (env.cpuid 0) (applyWrites (zeroWrites 12) info.VendorString))) ∧
    ((corinfo_GetInfo_win env (some info)).2.1.map (fun s => bufList 48 s.BrandString))
      = some (bufList 48
          (__brand_string env.cpuid (applyWrites (zeroWrites 48) info.BrandString))) := by
  refine ⟨?_, ?_, ?_, ?_, ?_, ?_, ?_, ?_, ?_, ?_⟩ <;>
    simp [corinfo_GetInfo_win, h, idPhase, __extensions, __null_corinfo, __brand_string]

theorem C5_registry_open_fail_soft_witness :
    envC5.regOpenOk = false ∧
    (corinfo_GetInfo_win envC5 (some info0)).1 = 0 ∧
    ((corinfo_GetInfo_win envC5 (some info0)).2.1.map corinfo.CpuFrequency) = some 0 ∧
    ((corinfo_GetInfo_win envC5 (some info0)).2.1.map corinfo.MMX)
      = some (bitOf (envC5.cpuid 1).r3 23) :=
  ⟨rfl, (C5_registry_open_fail_soft envC5 info0 rfl).1,
   (C5_registry_open_fail_soft envC5 info0 rfl).2.2.2.1,
   (C5_registry_open_fail_soft envC5 info0 rfl).2.2.2.2.2.2.2.1⟩

/-- C8: when the kernel memory-and-load query (`sysinfo`) fails,
`corinfo_GetInfo` signals failure (-1); the committed order of the Unix
variant places the memory query before every CPU-identification write (on
every run that passes the memory query, the trace starts with the memory
query and only then the identification calls), so the memory-stage failure
does not disturb the CPU-related fields: the snapshot is returned exactly as
the zeroing left it, no identification call having been issued. -/
theorem C8_memory_query_fail_frame (env : LinuxEnv) (info : corinfo) :
    (env.sysinfoRes = none →
      corinfo_GetInfo_linux env (some info)
        = (-1, some (__null_corinfo info), [Event.sysinfoQuery])) ∧
    (∀ sys, env.sysinfoRes = some sys →
      ((corinfo_GetInfo_linux env (some info)).2.2).take 2
        = [Event.sysinfoQuery, Event.cpuidQuery 0]) := by
  constructor
  · intro h
    simp [corinfo_GetInfo_linux, h]
  · intro sys hsys
    rcases hcpu : env.cpuinfo with _ | lines <;>
      simp [corinfo_GetInfo_linux, hsys, hcpu, idPhase]

/-- Concrete Unix environment in which the memory query fails. -/
def envC8 : LinuxEnv :=
  { sysinfoRes := none
    cpuid := fun _ => ⟨1, 2, 3, 4⟩
    cpuinfo := none
    nprocs := 1
    mhzInit := 0
    ubParse := 0 }

theorem C8_memory_query_fail_frame_witness :
    (corinfo_GetInfo_linux envC8 (some info0)
      = (-1, some (__null_corinfo info0), [Event.sysinfoQuery])) ∧
    ((corinfo_GetInfo_linux envC4 (some info0)).2.2).take 2
      = [Event.sysinfoQuery, Event.cpuidQuery 0] :=
  ⟨(C8_memory_query_fail_frame envC8 info0).1 rfl,
   (C8_memory_query_fail_frame envC4 info0).2 ⟨2048000, 1024000⟩ rfl⟩

/-- A marker line in which a digit immediately follows the colon. -/
def lineC6 : List Char := ['c', 'p', 'u', ' ', 'M', 'H', 'z', ':', '4', '2', '\n']

/-- Concrete Unix environment whose pseudo-file holds only `lineC6`. -/
def envC6 : LinuxEnv :=
  { sysinfoRes := some ⟨2048000, 1024000⟩
    cpuid := fun _ => ⟨1, 2, 3, 4⟩
    cpuinfo := some [lineC6]
    nprocs := 4
    mhzInit := 7
    ubParse := 9 }

/-- C6 counterexample: for the marker line `cpu MHz:42` the code stores 2 —
it parses from two characters past the colon, dropping the digit 4 — while
the integer parsed immediately after the colon is 42, so the stored frequency
is not the integer parsed immediately after the colon. -/
theorem C6_counterexample :
    ((corinfo_GetInfo_linux envC6 (some info0)).2.1.map corinfo.CpuFrequency)
      = some 2 ∧
    specParseAfterColon lineC6 = 42 ∧
    ((corinfo_GetInfo_linux envC6 (some info0)).2.1.map corinfo.CpuFrequency)
      ≠ some (intToU32 (specParseAfterColon lineC6)) :=
  ⟨by decide, by decide, by decide⟩

/-- C6 (amended): on the Unix variant the pseudo-file is scanned line by line
and the scan stops at the first line whose first 7 bytes are `cpu MHz`; when
that line contains a colon, the stored frequency is the integer `atoi` parses
starting two characters past the first colon (the code computes
`atoi(strchr(line, ':') + 2)`, skipping the colon and exactly one following
character — not the text immediately after the colon), converted through
size_t and uint32_t; if no line begins with the marker, the stored frequency
is the scan variable's indeterminate initial value, i.e. the result is not
defined by the program for such inputs. -/
theorem C6_frequency_scan (env : LinuxEnv) (info : corinfo) (sys : sysinfo)
    (lines : List (List Char))
    (hs : env.sysinfoRes = some sys) (hc : env.cpuinfo = some lines) :
    (∀ line k, lines.find? lineMatches = some line → strchr ':' line = some k →
      ((corinfo_GetInfo_linux env (some info)).2.1.map corinfo.CpuFrequency)
        = some (toU32 (toSizeT (atoi (line.drop (k + 2)))))) ∧
    (lines.find? lineMatches = none →
      ((corinfo_GetInfo_linux env (some info)).2.1.map corinfo.CpuFrequency)
        = some (toU32 env.mhzInit)) := by
  constructor
  · intro line k hfind hcolon
    simp [corinfo_GetInfo_linux, hs, hc, scanMHz, hfind, lineMHz, hcolon]
  · intro hfind
    simp [corinfo_GetInfo_linux, hs, hc, scanMHz, hfind]

/-- A marker line in the standard `/proc/cpuinfo` shape. -/
def lineC6w : List Char :=
  ['c', 'p', 'u', ' ', 'M', 'H', 'z', '\t', ':', ' ',
   '1', '8', '0', '0', '.', '0', '0', '0', '\n']

/-- Concrete Unix environment whose pseudo-file holds a non-marker line and
then a standard marker line. -/
def envC6w : LinuxEnv :=
  { sysinfoRes := some ⟨2048000, 1024000⟩
    cpuid := fun _ => ⟨1, 2, 3, 4⟩
    cpuinfo := some [['h', 'i', '\n'], lineC6w]
    nprocs := 4
    mhzInit := 7
    ubParse := 9 }

/-- Concrete Unix environment whose pseudo-file holds no marker line. -/
def envC6n : LinuxEnv :=
  { sysinfoRes := some ⟨2048000, 1024000⟩
    cpuid := fun _ => ⟨1, 2, 3, 4⟩
    cpuinfo := some [['h', 'i', '\n']]
    nprocs := 4
    mhzInit := 7
    ubParse := 9 }

theorem C6_frequency_scan_witness :
    [['h', 'i', '\n'], lineC6w].find? lineMatches = some lineC6w ∧
    strchr ':' lineC6w = some 8 ∧
    ((corinfo_GetInfo_linux envC6w (some info0)).2.1.map corinfo.CpuFrequency)
      = some (toU32 (toSizeT (atoi (lineC6w.drop (8 + 2))))) ∧
    toU32 (toSizeT (atoi (lineC6w.drop (8 + 2)))) = 1800 ∧
    ((corinfo_GetInfo_linux envC6n (some info0)).2.1.map corinfo.CpuFrequency)
      = some (toU32 envC6n.mhzInit) :=
  ⟨by decide, by decide,
   (C6_frequency_scan envC6w info0 ⟨2048000, 1024000⟩ [['h', 'i', '\n'], lineC6w]
      rfl rfl).1 lineC6w 8 (by decide) (by decide),
   by decide,
   (C6_frequency_scan envC6n info0 ⟨2048000, 1024000⟩ [['h', 'i', '\n']]
      rfl rfl).2 rfl⟩

/-- C7: on every non-error Unix-variant run whose stored total RAM is t KB
and stored free RAM is f KB with t > 0 and f ≤ t, the stored usage percentage
is the value of 100 − (RamFree/RamSize)·100; it lies in [0, 100] and equals
100·(1 − f/t) within a rounding tolerance of 1. -/
theorem C7_ram_usage_percent (env : LinuxEnv) (info : corinfo) (sys : sysinfo)
    (lines : List (List Char))
    (hs : env.sysinfoRes = some sys) (hc : env.cpuinfo = some lines)
    (ht : 0 < toU32 (sys.totalram / 1024))
    (hf : toU32 (sys.freeram / 1024) ≤ toU32 (sys.totalram / 1024)) :
    (corinfo_GetInfo_linux env (some info)).1 = 0 ∧
    ((corinfo_GetInfo_linux env (some info)).2.1.map corinfo.RamSize)
      = some (toU32 (sys.totalram / 1024)) ∧
    ((corinfo_GetInfo_linux env (some info)).2.1.map corinfo.RamFree)
      = some (toU32 (sys.freeram / 1024)) ∧
    ((corinfo_GetInfo_linux env (some info)).2.1.map corinfo.RamUsage)
      = some (ramUsageOf (toU32 (sys.totalram / 1024)) (toU32 (sys.freeram / 1024))) ∧
    ramUsageOf (toU32 (sys.totalram / 1024)) (toU32 (sys.freeram / 1024)) ≤ 100 ∧
    |(ramUsageOf (toU32 (sys.totalram / 1024)) (toU32 (sys.freeram / 1024)) : ℚ)
        - 100 * (1 - (toU32 (sys.freeram / 1024) : ℚ) / (toU32 (sys.totalram / 1024) : ℚ))|
      ≤ 1 := by
  have hb := ramUsageOf_le_and_close _ _ ht hf
  refine ⟨?_, ?_, ?_, ?_, hb.1, hb.2⟩ <;>
    simp [corinfo_GetInfo_linux, hs, hc]

/-- Concrete Unix environment for a successful run: 2000 MB total, 1000 MB
free. -/
def envC7 : LinuxEnv :=
  { sysinfoRes := some ⟨2048000, 1024000⟩
    cpuid := fun _ => ⟨1, 2, 3, 4⟩
    cpuinfo := some []
    nprocs := 4
    mhzInit := 0
    ubParse := 0 }

theorem C7_ram_usage_percent_witness :
    0 < toU32 (2048000 / 1024) ∧
    toU32 (1024000 / 1024) ≤ toU32 (2048000 / 1024) ∧
    ((corinfo_GetInfo_linux envC7 (some info0)).2.1.map corinfo.RamUsage)
      = some (ramUsageOf (toU32 (2048000 / 1024)) (toU32 (1024000 / 1024))) ∧
    ramUsageOf (toU32 (2048000 / 1024)) (toU32 (1024000 / 1024)) ≤ 100 :=
  ⟨by decide, by decide,
   (C7_ram_usage_percent envC7 info0 ⟨2048000, 1024000⟩ []
      rfl rfl (by decide) (by decide)).2.2.2.1,
   (C7_ram_usage_percent envC7 info0 ⟨2048000, 1024000⟩ []
      rfl rfl (by decide) (by decide)).2.2.2.2.1⟩
